import Mathlib

/-!
Shallow embedding of the AbiCamera Micro-Manager device adapter
(src/AbiCamera.cpp, src/AbiCamera.h, src/SequenceThread.cpp).

Machine integers are modeled as Nat/Int; bytes are Nat values < 256 with
explicit % 256 where uint8_t wraparound matters.  The serial transport is
modeled as explicit data (per-call chunk contents / result codes) passed to
the embedded operations.  The MMDevice framework (ImgBuffer, return-code
constants, property plumbing) is external to the repository; only the parts
the embedded code touches are modeled, with comments noting their origin.
-/

/-! ### Return codes.
DEVICE_OK, DEVICE_ERR, DEVICE_CAMERA_BUSY_ACQUIRING come from the external
MMDeviceConstants.h header; the ERR_ codes are defined in src/AbiCamera.h
lines 10-14. -/

def DEVICE_OK : Int := 0

def DEVICE_ERR : Int := 1

def DEVICE_CAMERA_BUSY_ACQUIRING : Int := 30

def ERR_UNKNOWN_MODE : Int := 102

def ERR_LIBRARY_INIT : Int := 103

def ERR_IMAGE_READ : Int := 104

def ERR_COM_RESPONSE : Int := 120

/-! ### Constants from src/AbiCamera.h lines 66-70. -/

def IMAGE_WIDTH : Nat := 512

def IMAGE_HEIGHT : Nat := 512

def MAX_BIT_DEPTH : Nat := 12

def TEMP_READ_DELAY_MS : Nat := 200

def ADC_V : Nat := 330

/-- The MMDevice ImgBuffer (external to the repository): width, height,
bytes-per-pixel depth, and the raw pixel bytes.  Bytes are Nats < 256. -/
structure ImgBuffer where
  width : Nat
  height : Nat
  depth : Nat
  pixels : List Nat
deriving DecidableEq

/-- ImgBuffer::Resize(w, h, d): geometry becomes w x h x d.  The contents
after a reallocating resize are unspecified; they are modeled as zeros
(no claim depends on post-resize contents). -/
def imgResize3 (w h d : Nat) : ImgBuffer :=
  { width := w, height := h, depth := d, pixels := List.replicate (w * h * d) 0 }

/-- ImgBuffer::Resize(w, h): two-argument overload keeps the current depth. -/
def imgResize2 (buf : ImgBuffer) (w h : Nat) : ImgBuffer :=
  { width := w, height := h, depth := buf.depth
    pixels := List.replicate (w * h * buf.depth) 0 }

/-- ImgBuffer::SetPixels: copies width*height*depth bytes from the source
data into the buffer (AbiCamera.cpp line 898 passes the accumulated read
buffer). -/
def setPixels (buf : ImgBuffer) (data : List Nat) : ImgBuffer :=
  { buf with pixels := data.take (buf.width * buf.height * buf.depth) }

/-- The camera state: the AbiCamera member variables relevant to the
acquisition protocol (src/AbiCamera.h lines 72-89).  m_subtractBackground
and m_cold are ints in the source (tested for truthiness); doubles
(m_exposureMs, m_ccdT) are modeled as exact rationals; the
m_lastTempRead time point is modeled as milliseconds (Nat). -/
structure CamState where
  binning : Nat
  bytesPerPixel : Nat
  bitDepth : Nat
  subtractBackground : Nat
  exposureMs : Rat
  roiStartX : Nat
  roiStartY : Nat
  imgBuf : ImgBuffer
  bkgBuf : ImgBuffer
  ccdT : Rat
  cold : Nat
  lastTempRead : Nat
deriving DecidableEq

/-- AbiCamera::GetImageBufferSize (AbiCamera.cpp lines 419-422):
m_imgBuf.Width() * m_imgBuf.Height() * GetImageBytesPerPixel(), where
GetImageBytesPerPixel returns m_imgBuf.Depth(). -/
def getImageBufferSize (s : CamState) : Nat :=
  s.imgBuf.width * s.imgBuf.height * s.imgBuf.depth

/-- AbiCamera::ResizeImageBuffer (AbiCamera.cpp lines 838-844): resizes both
the live and the background buffer to IMAGE_WIDTH/m_binning by
IMAGE_HEIGHT/m_binning (C++ integer division) at m_bytesPerPixel depth. -/
def resizeImageBuffer (s : CamState) : CamState :=
  { s with
    imgBuf := imgResize3 (IMAGE_WIDTH / s.binning) (IMAGE_HEIGHT / s.binning) s.bytesPerPixel
    bkgBuf := imgResize3 (IMAGE_WIDTH / s.binning) (IMAGE_HEIGHT / s.binning) s.bytesPerPixel }

/-- AbiCamera::SetROI (AbiCamera.cpp lines 438-455).  xSize = ySize = 0
clears the ROI (ResizeImageBuffer plus origin reset); otherwise only the
live buffer m_imgBuf is resized to the requested size (two-argument
Resize keeps depth) and the origin is recorded.  Returns DEVICE_OK. -/
def setROI (x y xSize ySize : Nat) (s : CamState) : Int × CamState :=
  if xSize = 0 ∧ ySize = 0 then
    (DEVICE_OK, { resizeImageBuffer s with roiStartX := 0, roiStartY := 0 })
  else
    (DEVICE_OK, { s with imgBuf := imgResize2 s.imgBuf xSize ySize, roiStartX := x, roiStartY := y })

/-- AbiCamera::ClearROI (AbiCamera.cpp lines 476-483): ResizeImageBuffer
plus origin reset.  Returns DEVICE_OK. -/
def clearROI (s : CamState) : Int × CamState :=
  (DEVICE_OK, { resizeImageBuffer s with roiStartX := 0, roiStartY := 0 })

/-- AbiCamera::OnBinning, MM::AfterSet branch (AbiCamera.cpp lines 632-638):
m_binning is set from the property value and ResizeImageBuffer is called. -/
def onBinningAfterSet (b : Nat) (s : CamState) : CamState :=
  resizeImageBuffer { s with binning := b }

/-- The state after the AbiCamera constructor (AbiCamera.cpp lines 59-73)
and Initialize (which calls ResizeImageBuffer, line 202): binning 1,
1 byte per pixel, bit depth 8, background subtraction on, exposure 1000 ms,
ROI origin (0,0), cached temperature 42.42 C; construction time is taken
as instant 0. -/
def initState : CamState :=
  resizeImageBuffer
    { binning := 1, bytesPerPixel := 1, bitDepth := 8, subtractBackground := 1
      exposureMs := 1000, roiStartX := 0, roiStartY := 0
      imgBuf := ⟨0, 0, 0, []⟩, bkgBuf := ⟨0, 0, 0, []⟩
      ccdT := 2121/50, cold := 0, lastTempRead := 0 }

/-! ### The 2-byte acknowledgment read loop in SnapImage
(AbiCamera.cpp lines 315-334 for the foreground trigger, and the identical
lines 264-283 for the background trigger). -/

/-- Outcome of the acknowledgment read loop. -/
inductive AckResult where
  | ok : AckResult
  | comError : AckResult
  | diverges : AckResult
deriving DecidableEq

/-- The do/while acknowledgment read loop of SnapImage (AbiCamera.cpp lines
318-334): each ReadFromComPort call delivers the next chunk byte-count from
the list; totalRead accumulates; the loop repeats while totalRead < 2.
Once the list is exhausted the transport has no more bytes and every further
read returns 0, so the accumulated total can never grow: if it is still
below 2 the loop repeats the same state forever, encoded as `.diverges`
(the fuel-indexed version ackLoopFuel below makes this encoding precise).
On exit the source checks the LAST read count: `if (read != 2)` returns
ERR_COM_RESPONSE (line 330), encoded `.comError`; otherwise `.ok`. -/
def ackLoop : List Nat → Nat → AckResult
  | [], _ => .diverges
  | c :: rest, totalRead =>
    if totalRead + c < 2 then ackLoop rest (totalRead + c)
    else if c = 2 then .ok else .comError

/-- Fuel-indexed version of the acknowledgment loop over an infinite chunk
stream: `none` means the loop has not exited within `fuel` iterations.
Used to justify the `.diverges` encoding of ackLoop. -/
def ackLoopFuel (tp : Nat → Nat) (fuel i totalRead : Nat) : Option Bool :=
  match fuel with
  | 0 => none
  | fuel' + 1 =>
    if totalRead + tp i < 2 then ackLoopFuel tp fuel' (i + 1) (totalRead + tp i)
    else some (tp i == 2)

/-- A transport that has exactly one byte available: the first read returns
1 byte, every later read returns 0 bytes. -/
def oneByteStream : Nat → Nat := fun i => if i = 0 then 1 else 0

/-! ### The frame reader: AbiCamera::ReadImage (AbiCamera.cpp lines 860-901). -/

def chunkSize : Nat := 32768

def maxIters : Nat := 75

/-- The do/while chunked read loop of ReadImage (AbiCamera.cpp lines
873-890).  The transport is a function from the read-call index to either a
transport error code or the chunk of bytes delivered by that call.  `fuel`
is maxIters minus the number of iterations already performed (the loop
condition numIters < maxIters); `i` counts the read calls made so far,
`acc` the accumulated bytes, `delays` the number of 100 ms sleeps taken
after zero-byte reads (line 885-888).  The loop exits when the accumulated
length reaches numBytesToReceive or the iteration bound is hit, returning
(acc, read calls made, delays). -/
def readLoop (tp : Nat → Except Int (List Nat)) (numBytesToReceive : Nat)
    (fuel i : Nat) (acc : List Nat) (delays : Nat) :
    Except Int (List Nat × Nat × Nat) :=
  match fuel with
  | 0 => .ok (acc, i, delays)
  | fuel' + 1 =>
    match tp i with
    | .error e => .error e
    | .ok chunk =>
      if (acc ++ chunk).length < numBytesToReceive then
        readLoop tp numBytesToReceive fuel' (i + 1) (acc ++ chunk)
          (if chunk.length = 0 then delays + 1 else delays)
      else .ok (acc ++ chunk, i + 1, if chunk.length = 0 then delays + 1 else delays)

/-- AbiCamera::ReadImage (AbiCamera.cpp lines 860-901): runs the chunked
read loop (at most maxIters = 75 read calls); if the accumulated length
differs from numBytesToReceive the call fails with ERR_IMAGE_READ (line
892-896); on success the accumulated bytes are installed into the target
buffer via SetPixels (line 898).  In the source numBytesToReceive is
GetImageBufferSize(); here it is passed by the caller.  Returns the updated
buffer together with (read calls made, zero-read delays taken). -/
def readImage (tp : Nat → Except Int (List Nat)) (buf : ImgBuffer)
    (numBytesToReceive : Nat) : Except Int (ImgBuffer × Nat × Nat) :=
  match readLoop tp numBytesToReceive maxIters 0 [] 0 with
  | .error e => .error e
  | .ok (acc, iters, delays) =>
    if acc.length ≠ numBytesToReceive then .error ERR_IMAGE_READ
    else .ok (setPixels buf acc, iters, delays)

/-- A simulated transport delivering the listed chunks on successive read
calls (and empty chunks once the list is exhausted), never failing. -/
def streamOf (chunks : List (List Nat)) : Nat → Except Int (List Nat) :=
  fun i => .ok (chunks.getD i [])

/-! ### Background subtraction and the snap cycle
(AbiCamera.cpp lines 246-360). -/

/-- Unsigned 8-bit subtraction with wraparound: the lambda
`[](auto a, auto b) { return a - b; }` over uint8_t values (AbiCamera.cpp
line 356).  For bytes a, b < 256 the C++ int subtraction followed by the
conversion back to uint8_t equals (a + 256 - b) mod 256. -/
def byteSub (a b : Nat) : Nat := (a % 256 + 256 - b % 256) % 256

/-- The std::transform call of SnapImage (AbiCamera.cpp lines 355-356): the
first n = GetImageBufferSize() bytes of the live buffer are replaced in
place by byteSub of the live byte and the background byte; bytes beyond n
are untouched. -/
def subtractInPlace (img bkg : ImgBuffer) (n : Nat) : ImgBuffer :=
  { img with pixels :=
      (List.range n).map (fun i => byteSub (img.pixels.getD i 0) (bkg.pixels.getD i 0))
      ++ img.pixels.drop n }

/-- The transport behavior during one SnapImage call: the result codes of
the four SendSerialCommand calls, the acknowledgment chunk counts for the
two trigger commands, and the image-payload chunk streams for the two
readouts.  (When background subtraction is off, the bkg fields are never
consulted.) -/
structure SnapTransport where
  bkgShtSendResult : Int
  bkgAck : List Nat
  bkgRidSendResult : Int
  bkgRead : Nat → Except Int (List Nat)
  fgShtSendResult : Int
  fgAck : List Nat
  fgRidSendResult : Int
  fgRead : Nat → Except Int (List Nat)

/-- Outcome of a SnapImage call: either the function returns a code with
the camera state at return, or it never returns (`hang`, carrying the state
at the point the acknowledgment loop wedged - no further writes happen). -/
inductive SnapOutcome where
  | ret : Int → CamState → SnapOutcome
  | hang : CamState → SnapOutcome
deriving DecidableEq

/-- The foreground half of SnapImage (AbiCamera.cpp lines 303-359): send
the trigger "sht <exposure>", wait, run the 2-byte acknowledgment loop,
send the readout "rid <binning> <bitDepth>", read the frame into m_imgBuf,
and if background subtraction is enabled apply the in-place byte
subtraction over GetImageBufferSize() bytes. -/
def snapForeground (s : CamState) (tp : SnapTransport) : SnapOutcome :=
  if tp.fgShtSendResult ≠ DEVICE_OK then .ret tp.fgShtSendResult s
  else
    match ackLoop tp.fgAck 0 with
    | .diverges => .hang s
    | .comError => .ret ERR_COM_RESPONSE s
    | .ok =>
      if tp.fgRidSendResult ≠ DEVICE_OK then .ret tp.fgRidSendResult s
      else
        match readImage tp.fgRead s.imgBuf (getImageBufferSize s) with
        | .error e => .ret e s
        | .ok (img, _, _) =>
          let s1 := { s with imgBuf := img }
          if s1.subtractBackground ≠ 0 then
            .ret DEVICE_OK
              { s1 with imgBuf := subtractInPlace s1.imgBuf s1.bkgBuf (getImageBufferSize s1) }
          else .ret DEVICE_OK s1

/-- AbiCamera::SnapImage (AbiCamera.cpp lines 246-360).  If background
subtraction is enabled: send the zero-exposure trigger "sht 0", wait, run
the 2-byte acknowledgment loop, send the readout command, read the frame
into m_bkgBuf; then in all cases perform the foreground half. -/
def snapImage (s : CamState) (tp : SnapTransport) : SnapOutcome :=
  if s.subtractBackground ≠ 0 then
    if tp.bkgShtSendResult ≠ DEVICE_OK then .ret tp.bkgShtSendResult s
    else
      match ackLoop tp.bkgAck 0 with
      | .diverges => .hang s
      | .comError => .ret ERR_COM_RESPONSE s
      | .ok =>
        if tp.bkgRidSendResult ≠ DEVICE_OK then .ret tp.bkgRidSendResult s
        else
          match readImage tp.bkgRead s.bkgBuf (getImageBufferSize s) with
          | .error e => .ret e s
          | .ok (bkg, _, _) => snapForeground { s with bkgBuf := bkg } tp
  else snapForeground s tp

/-! ### The sequence acquisition controller
(src/SequenceThread.cpp, and AbiCamera.cpp lines 539-620). -/

/-- The SequenceThread member variables (src/AbiCamera.h lines 112-118). -/
structure SequenceThreadState where
  stop : Bool
  numImages : Int
  imageCounter : Int
  intervalMs : Rat
deriving DecidableEq

/-- The SequenceThread constructor (SequenceThread.cpp lines 3-9):
interval 100 ms, zero images, zero counter, stopped. -/
def threadInit : SequenceThreadState :=
  { stop := true, numImages := 0, imageCounter := 0, intervalMs := 100 }

/-- SequenceThread::Start (SequenceThread.cpp lines 17-24): records the
request, resets the counter, clears the stop flag (and activates the
thread, whose body is threadSvc). -/
def threadStart (numImages : Int) (intervalMs : Rat) (t : SequenceThreadState) :
    SequenceThreadState :=
  { t with numImages := numImages, intervalMs := intervalMs
           imageCounter := 0, stop := false }

/-- SequenceThread::Stop (SequenceThread.cpp lines 13-15). -/
def threadStop (t : SequenceThreadState) : SequenceThreadState :=
  { t with stop := true }

/-- SequenceThread::IsStopped (SequenceThread.cpp lines 26-28). -/
def threadIsStopped (t : SequenceThreadState) : Bool := t.stop

/-- SequenceThread::svc (SequenceThread.cpp lines 30-34): the thread body.
It sets ret = DEVICE_ERR and returns immediately; it performs no
acquisition loop and no InsertImage (publish) calls.  Result: the return
code and the number of publish calls made to the downstream sink. -/
def threadSvc (_t : SequenceThreadState) : Int × Nat := (DEVICE_ERR, 0)

/-- AbiCamera::IsCapturing (AbiCamera.cpp lines 618-620):
!m_thread->IsStopped(). -/
def isCapturing (t : SequenceThreadState) : Bool := !threadIsStopped t

/-- AbiCamera::StartSequenceAcquisition(long, double, bool) (AbiCamera.cpp
lines 562-572): rejects with DEVICE_CAMERA_BUSY_ACQUIRING if capturing,
propagates a PrepareForAcq failure, and otherwise returns DEVICE_OK.  The
numImages / interval_ms / stopOnOverflow arguments are never used and
m_thread->Start is never called: the thread state is returned unchanged. -/
def startSequenceAcquisition (_numImages : Int) (_intervalMs : Rat)
    (_stopOnOverflow : Bool) (prepareForAcqResult : Int)
    (t : SequenceThreadState) : Int × SequenceThreadState :=
  if isCapturing t then (DEVICE_CAMERA_BUSY_ACQUIRING, t)
  else if prepareForAcqResult ≠ DEVICE_OK then (prepareForAcqResult, t)
  else (DEVICE_OK, t)

/-! ### The temperature cache: AbiCamera::OnCCDTemp
(AbiCamera.cpp lines 738-786). -/

/-- The transport behavior during one temperature poll attempt: the result
of SendSerialCommand "chp", the result of the 4-byte ReadFromComPort, the
byte count it reports, and the (up to 4) response bytes. -/
structure TempTransport where
  sendResult : Int
  readResult : Int
  readCount : Nat
  ans : List Nat
deriving DecidableEq

/-- The temperature decode (AbiCamera.cpp lines 775-777):
tempAdc = ansBuf[1] * 256 + ansBuf[0]; tempK = tempAdc * ADC_V / 4096.0;
m_ccdT = tempK - 273.15.  The double arithmetic is modeled exactly over
the rationals. -/
def decodeTemp (tp : TempTransport) : Rat :=
  ((tp.ans.getD 1 0 * 256 + tp.ans.getD 0 0) * ADC_V : Nat) / 4096 - 27315/100

/-- Result of one OnCCDTemp BeforeGet call: the returned code, the value
delivered to the property (none on an early error return, which skips
pProp->Set), the camera state afterwards, and the number of transport
round trips performed (purge/send/read: 1 on a poll attempt, 0 on the
cached path). -/
structure TempResult where
  code : Int
  value : Option Rat
  state : CamState
  roundTrips : Nat
deriving DecidableEq

/-- AbiCamera::OnCCDTemp, MM::BeforeGet branch (AbiCamera.cpp lines
740-781).  If the elapsed milliseconds since m_lastTempRead exceed
TEMP_READ_DELAY_MS: m_lastTempRead is set to now FIRST (line 746), then the
port is purged, "chp" is sent (failure returns that code), 4 bytes are read
(transport failure returns that code; a byte count other than 4 returns
ERR_COM_RESPONSE), and on success m_ccdT is updated from the decode.
Otherwise nothing is polled.  Finally pProp->Set(m_ccdT) delivers the
cached value and the handler returns DEVICE_OK. -/
def onCCDTempGet (now : Nat) (tp : TempTransport) (s : CamState) : TempResult :=
  if now - s.lastTempRead > TEMP_READ_DELAY_MS then
    let s1 := { s with lastTempRead := now }
    if tp.sendResult ≠ DEVICE_OK then ⟨tp.sendResult, none, s1, 1⟩
    else if tp.readResult ≠ DEVICE_OK then ⟨tp.readResult, none, s1, 1⟩
    else if tp.readCount ≠ 4 then ⟨ERR_COM_RESPONSE, none, s1, 1⟩
    else
      let s2 := { s1 with ccdT := decodeTemp tp }
      ⟨DEVICE_OK, some s2.ccdT, s2, 1⟩
  else ⟨DEVICE_OK, some s.ccdT, s, 0⟩

/-! ### Helper lemmas. -/

/-- Both buffers share width, height and depth. -/
def buffersSameGeometry (s : CamState) : Prop :=
  s.imgBuf.width = s.bkgBuf.width ∧ s.imgBuf.height = s.bkgBuf.height ∧
    s.imgBuf.depth = s.bkgBuf.depth

/-- One unfolding step of the chunked read loop when the transport call
succeeds. -/
lemma readLoop_step (tp : Nat → Except Int (List Nat)) (N fuel i : Nat)
    (acc : List Nat) (delays : Nat) (chunk : List Nat) (hc : tp i = .ok chunk) :
    readLoop tp N (fuel + 1) i acc delays =
      if (acc ++ chunk).length < N then
        readLoop tp N fuel (i + 1) (acc ++ chunk)
          (if chunk.length = 0 then delays + 1 else delays)
      else .ok (acc ++ chunk, i + 1, if chunk.length = 0 then delays + 1 else delays) := by
  rw [readLoop, hc]

/-- On a transport that always returns zero bytes, each loop iteration
leaves the accumulator empty and burns one unit of fuel, taking one delay. -/
lemma readLoop_silent (N : Nat) (hN : 0 < N) :
    ∀ fuel i delays, readLoop (streamOf []) N fuel i [] delays =
      .ok ([], i + fuel, delays + fuel) := by
  intro fuel
  induction fuel with
  | zero => intro i delays; rfl
  | succ fuel' ih =>
    intro i delays
    rw [readLoop_step (streamOf []) N fuel' i [] delays [] rfl]
    simp only [List.append_nil, List.length_nil, if_true]
    rw [if_pos hN, ih]
    simp only [Except.ok.injEq, Prod.mk.injEq, true_and]
    omega

/-- A single transport chunk of exactly the expected length makes ReadImage
succeed after one read call with no delay. -/
lemma readImage_one_chunk (tp : Nat → Except Int (List Nat)) (D : List Nat)
    (buf : ImgBuffer) (N : Nat) (h0 : tp 0 = .ok D) (hD : D.length = N)
    (hN : 0 < N) :
    readImage tp buf N = .ok (setPixels buf D, 1, 0) := by
  have hne : ¬ D.length = 0 := by omega
  have hlt : ¬ (([] : List Nat) ++ D).length < N := by simp [hD]
  rw [readImage, show maxIters = 74 + 1 from rfl,
    readLoop_step tp N 74 0 [] 0 D h0, if_neg hlt, if_neg hne]
  simp [hD]

/-- Indexing the mapped range underlying subtractInPlace. -/
lemma getD_map_range (f : Nat → Nat) {n i : Nat} (h : i < n) :
    ((List.range n).map f).getD i 0 = f i := by
  rw [List.getD_eq_getElem _ _ (by simpa using h)]
  simp

/-- The byte written at position i < n by the in-place subtraction. -/
lemma subtractInPlace_getD (img bkg : ImgBuffer) {n i : Nat} (h : i < n) :
    (subtractInPlace img bkg n).pixels.getD i 0 =
      byteSub (img.pixels.getD i 0) (bkg.pixels.getD i 0) := by
  rw [subtractInPlace, List.getD_append _ _ _ _ (by simpa using h),
    getD_map_range _ h]

/-- The cached path of the temperature handler: within the minimum poll
interval nothing is polled and the cached value is delivered. -/
lemma onCCDTempGet_cached (t : Nat) (tp : TempTransport) (s : CamState)
    (h : t - s.lastTempRead ≤ TEMP_READ_DELAY_MS) :
    onCCDTempGet t tp s = ⟨DEVICE_OK, some s.ccdT, s, 0⟩ := by
  rw [onCCDTempGet, if_neg (by omega)]

/-- The successful refresh path of the temperature handler. -/
lemma onCCDTempGet_refresh (t : Nat) (tp : TempTransport) (s : CamState)
    (h : t - s.lastTempRead > TEMP_READ_DELAY_MS)
    (hs : tp.sendResult = DEVICE_OK) (hr : tp.readResult = DEVICE_OK)
    (hc : tp.readCount = 4) :
    onCCDTempGet t tp s =
      ⟨DEVICE_OK, some (decodeTemp tp),
        { s with lastTempRead := t, ccdT := decodeTemp tp }, 1⟩ := by
  rw [onCCDTempGet, if_pos h, if_neg (by simp [hs]), if_neg (by simp [hr]),
    if_neg (by simp [hc])]

/-! ### Claim theorems. -/

/-- C9: for every starting state, setROI(0,0,0,0) and clearROI() perform the
identical state transformation (restore native binned geometry, reset the
ROI origin to (0,0)) and return the same code. -/
theorem c9_setROI_zero_equals_clearROI (s : CamState) :
    setROI 0 0 0 0 s = clearROI s := by
  rw [setROI, clearROI, if_pos ⟨rfl, rfl⟩]

/-- C8: for every binning factor b in the allowed set {1,2,4,8,16,32,64},
after the binning property is set (which resizes) the buffer width and
height are the native dimension (512) divided by b, and resizing again with
b unchanged leaves the state identical. -/
theorem c8_binning_geometry (s : CamState) (b : Nat)
    (hb : b ∈ [1, 2, 4, 8, 16, 32, 64]) :
    (onBinningAfterSet b s).imgBuf.width = IMAGE_WIDTH / b ∧
    (onBinningAfterSet b s).imgBuf.height = IMAGE_HEIGHT / b ∧
    (onBinningAfterSet b s).bkgBuf.width = IMAGE_WIDTH / b ∧
    (onBinningAfterSet b s).bkgBuf.height = IMAGE_HEIGHT / b ∧
    IMAGE_WIDTH = 512 ∧ IMAGE_HEIGHT = 512 ∧
    resizeImageBuffer (onBinningAfterSet b s) = onBinningAfterSet b s := by
  refine ⟨rfl, rfl, rfl, rfl, rfl, rfl, ?_⟩
  cases s
  simp [onBinningAfterSet, resizeImageBuffer]

/-- Witness for C8 at b = 4 from the initial state. -/
theorem c8_binning_geometry_witness :
    (4 ∈ [1, 2, 4, 8, 16, 32, 64]) ∧
    ((onBinningAfterSet 4 initState).imgBuf.width = IMAGE_WIDTH / 4 ∧
     (onBinningAfterSet 4 initState).imgBuf.height = IMAGE_HEIGHT / 4 ∧
     (onBinningAfterSet 4 initState).bkgBuf.width = IMAGE_WIDTH / 4 ∧
     (onBinningAfterSet 4 initState).bkgBuf.height = IMAGE_HEIGHT / 4 ∧
     IMAGE_WIDTH = 512 ∧ IMAGE_HEIGHT = 512 ∧
     resizeImageBuffer (onBinningAfterSet 4 initState) = onBinningAfterSet 4 initState) :=
  ⟨by decide, c8_binning_geometry initState 4 (by decide)⟩

/-- C3 (amended): binning/bit-depth resizes (ResizeImageBuffer, also as run
by OnBinning), clearROI, and setROI(_,_,0,0) apply identical dimensions to
the live and background buffers, so they establish equal geometry; setROI
with a nonzero size, however, resizes only the live buffer (see the
counterexample theorem for C3). -/
theorem c3_geometry_preserved_amended (s : CamState) (b x y : Nat) :
    buffersSameGeometry (resizeImageBuffer s) ∧
    buffersSameGeometry (clearROI s).2 ∧
    buffersSameGeometry (setROI x y 0 0 s).2 ∧
    buffersSameGeometry (onBinningAfterSet b s) := by
  refine ⟨⟨rfl, rfl, rfl⟩, ⟨rfl, rfl, rfl⟩, ?_, ⟨rfl, rfl, rfl⟩⟩
  rw [setROI, if_pos ⟨rfl, rfl⟩]
  exact ⟨rfl, rfl, rfl⟩

/-- C3 counterexample: from the initial state (both buffers 512 x 512 x 1),
setROI(0,0,100,100) resizes only the live buffer, leaving the background
buffer at 512 x 512: the same-geometry invariant claimed for ROI set is
violated. -/
theorem c3_setROI_breaks_geometry :
    (setROI 0 0 100 100 initState).2.imgBuf.width = 100 ∧
    (setROI 0 0 100 100 initState).2.bkgBuf.width = 512 ∧
    ¬ buffersSameGeometry (setROI 0 0 100 100 initState).2 := by
  refine ⟨rfl, rfl, ?_⟩
  intro h
  have hw : (100 : Nat) = 512 := h.1
  exact absurd hw (by decide)

/-- C1: StartSequenceAcquisition(5, 50, false) on an Idle controller (with
PrepareForAcq succeeding) returns DEVICE_OK but leaves the sequence thread
state untouched - m_thread->Start is never called, so no acquisition loop
begins; and even the thread body SequenceThread::svc, had it been started,
returns DEVICE_ERR immediately after zero publish calls, not the 5 the
claim requires. -/
theorem c1_startSequenceAcquisition_publishes_nothing :
    startSequenceAcquisition 5 50 false DEVICE_OK threadInit = (DEVICE_OK, threadInit) ∧
    isCapturing threadInit = false ∧
    threadSvc (threadStart 5 50 threadInit) = (DEVICE_ERR, 0) ∧
    (threadSvc (threadStart 5 50 threadInit)).2 ≠ 5 := by
  refine ⟨rfl, rfl, rfl, by decide⟩

/-- C4: on a transport that returns 0 bytes on every read call, the chunked
read loop performs exactly maxIters = 75 read attempts (and 75 zero-read
delays) and then exits with nothing accumulated, so ReadImage fails with
ERR_IMAGE_READ for every positive expected payload size. -/
theorem c4_reader_fails_after_75 (buf : ImgBuffer) (N : Nat) (hN : 0 < N) :
    readLoop (streamOf []) N maxIters 0 [] 0 = .ok ([], maxIters, maxIters) ∧
    readImage (streamOf []) buf N = .error ERR_IMAGE_READ := by
  have h := readLoop_silent N hN maxIters 0 0
  refine ⟨by simpa using h, ?_⟩
  rw [readImage, h]
  simp only [Nat.zero_add, List.length_nil]
  rw [if_pos (by omega)]

/-- Witness for C4 at the smallest reachable payload size 64 (binning 64). -/
theorem c4_reader_fails_after_75_witness :
    0 < 64 ∧
    (readLoop (streamOf []) 64 maxIters 0 [] 0 = .ok ([], maxIters, maxIters) ∧
     readImage (streamOf []) ⟨8, 8, 1, []⟩ 64 = .error ERR_IMAGE_READ) :=
  ⟨by decide, c4_reader_fails_after_75 ⟨8, 8, 1, []⟩ 64 (by decide)⟩

/-- C5: for a 32768-byte expected payload delivered as chunks of sizes
[10000, 0, 22768], the frame read succeeds after exactly 3 read calls with
exactly one zero-read delay, and installs exactly 32768 bytes into the
target buffer. -/
theorem c5_chunked_read_succeeds (buf : ImgBuffer) (d1 d3 : List Nat)
    (h1 : d1.length = 10000) (h3 : d3.length = 22768)
    (hbuf : buf.width * buf.height * buf.depth = 32768) :
    readImage (streamOf [d1, [], d3]) buf 32768 =
      .ok (setPixels buf (d1 ++ d3), 3, 1) ∧
    (setPixels buf (d1 ++ d3)).pixels.length = 32768 := by
  constructor
  · rw [readImage, show maxIters = 74 + 1 from rfl,
      readLoop_step (streamOf [d1, [], d3]) 32768 74 0 [] 0 d1 rfl]
    simp only [List.nil_append]
    rw [if_pos (show d1.length < 32768 by omega),
      if_neg (show ¬ d1.length = 0 by omega)]
    rw [show (74 : Nat) = 73 + 1 from rfl,
      readLoop_step (streamOf [d1, [], d3]) 32768 73 (0 + 1) d1 0 [] rfl]
    simp only [List.append_nil, List.length_nil, if_true]
    rw [if_pos (show d1.length < 32768 by omega)]
    rw [show (73 : Nat) = 72 + 1 from rfl,
      readLoop_step (streamOf [d1, [], d3]) 32768 72 (0 + 1 + 1) d1 (0 + 1) d3 rfl]
    rw [if_neg (show ¬ (d1 ++ d3).length < 32768 by
      simp only [List.length_append]; omega)]
    rw [if_neg (show ¬ d3.length = 0 by omega)]
    simp only []
    rw [if_neg (show ¬ (d1 ++ d3).length ≠ 32768 by
      simp only [List.length_append]; omega)]
  · simp only [setPixels, hbuf, List.length_take, List.length_append, h1, h3]
    omega

/-- Witness for C5: concrete chunks of 10000 and 22768 bytes and a
256 x 128 x 1 target buffer. -/
theorem c5_chunked_read_succeeds_witness :
    readImage (streamOf [List.replicate 10000 1, [], List.replicate 22768 2])
        ⟨256, 128, 1, []⟩ 32768 =
      .ok (setPixels ⟨256, 128, 1, []⟩ (List.replicate 10000 1 ++ List.replicate 22768 2), 3, 1) ∧
    (setPixels ⟨256, 128, 1, []⟩ (List.replicate 10000 1 ++ List.replicate 22768 2)).pixels.length
      = 32768 :=
  c5_chunked_read_succeeds ⟨256, 128, 1, []⟩ (List.replicate 10000 1)
    (List.replicate 22768 2) (by rw [List.length_replicate])
    (by rw [List.length_replicate]) (by decide)

/-- After the single available byte has been consumed, the acknowledgment
loop never exits: the transport returns 0 bytes on every further call and
the accumulated total stays below 2. -/
lemma ackLoopFuel_stuck :
    ∀ fuel i totalRead, i ≠ 0 → totalRead < 2 →
      ackLoopFuel oneByteStream fuel i totalRead = none := by
  intro fuel
  induction fuel with
  | zero => intro i totalRead _ _; rfl
  | succ fuel' ih =>
    intro i totalRead hi ht
    have hc : oneByteStream i = 0 := by simp [oneByteStream, hi]
    rw [ackLoopFuel, hc]
    rw [if_pos (by omega)]
    exact ih (i + 1) (totalRead + 0) (by omega) (by omega)

/-- A snap state with background subtraction disabled (so the foreground
acknowledgment loop of AbiCamera.cpp lines 315-334 is the one exercised). -/
def ackHangState : CamState := { initState with subtractBackground := 0 }

/-- A transport whose foreground-trigger acknowledgment delivers a single
1-byte chunk and then nothing; all sends succeed. -/
def ackHangTransport : SnapTransport :=
  { bkgShtSendResult := DEVICE_OK, bkgAck := [], bkgRidSendResult := DEVICE_OK
    bkgRead := streamOf [], fgShtSendResult := DEVICE_OK, fgAck := [1]
    fgRidSendResult := DEVICE_OK, fgRead := streamOf [] }

/-- C2: when the acknowledgment to a trigger command totals 1 byte (one
1-byte chunk, then silence), SnapImage does NOT fail with ERR_COM_RESPONSE:
the unbounded do/while acknowledgment loop never exits (the fuel-indexed
loop returns none for every fuel), so the snap hangs with the live buffer
untouched.  Moreover, because the exit check tests the LAST read count
rather than the total, a valid 2-byte acknowledgment delivered as two
1-byte chunks is rejected with ERR_COM_RESPONSE, while a 3-byte response
delivered as chunks [1, 2] is accepted. -/
theorem c2_one_byte_ack_hangs_not_comError :
    snapImage ackHangState ackHangTransport = .hang ackHangState ∧
    (∀ fuel, ackLoopFuel oneByteStream fuel 0 0 = none) ∧
    ackLoop [1, 1] 0 = .comError ∧
    ackLoop [1, 2] 0 = .ok ∧
    ackLoop [2] 0 = .ok := by
  refine ⟨rfl, ?_, rfl, rfl, rfl⟩
  intro fuel
  match fuel with
  | 0 => rfl
  | fuel' + 1 =>
    rw [ackLoopFuel, show oneByteStream 0 = 1 from rfl]
    rw [if_pos (by omega)]
    exact ackLoopFuel_stuck fuel' (0 + 1) (0 + 1) (by omega) (by omega)

/-- SetPixels does not change the buffer width. -/
lemma setPixels_width (buf : ImgBuffer) (data : List Nat) :
    (setPixels buf data).width = buf.width := rfl

/-- SetPixels does not change the buffer height. -/
lemma setPixels_height (buf : ImgBuffer) (data : List Nat) :
    (setPixels buf data).height = buf.height := rfl

/-- SetPixels does not change the buffer depth. -/
lemma setPixels_depth (buf : ImgBuffer) (data : List Nat) :
    (setPixels buf data).depth = buf.depth := rfl

/-- The transport of the C6 scenario: both trigger acknowledgments arrive
as a single 2-byte chunk, the background readout delivers the bytes B in
one chunk, the foreground readout delivers the bytes F in one chunk, and
all sends succeed. -/
def c6Transport (F B : List Nat) : SnapTransport :=
  ⟨DEVICE_OK, [2], DEVICE_OK, streamOf [B], DEVICE_OK, [2], DEVICE_OK, streamOf [F]⟩

/-- C6: a snap with background subtraction enabled whose foreground frame
delivers bytes F and whose background frame delivers bytes B completes
successfully, and every byte i of the resulting live buffer is the
foreground byte minus the background byte modulo 256 (unsigned 8-bit
wraparound, no clamping); in particular byteSub 5 10 = 251. -/
theorem c6_background_subtract_wraps (s : CamState) (F B : List Nat) (i : Nat)
    (hsub : s.subtractBackground ≠ 0)
    (hF : F.length = getImageBufferSize s)
    (hB : B.length = getImageBufferSize s)
    (hbkg : s.bkgBuf.width * s.bkgBuf.height * s.bkgBuf.depth = getImageBufferSize s)
    (hi : i < getImageBufferSize s) :
    (∃ s', snapImage s (c6Transport F B) = .ret DEVICE_OK s' ∧
      s'.imgBuf.pixels.getD i 0 = byteSub (F.getD i 0) (B.getD i 0)) ∧
    byteSub 5 10 = 251 := by
  have hN : 0 < getImageBufferSize s := Nat.lt_of_le_of_lt (Nat.zero_le i) hi
  have hbkgRead : readImage (streamOf [B]) s.bkgBuf (getImageBufferSize s)
      = .ok (setPixels s.bkgBuf B, 1, 0) :=
    readImage_one_chunk _ B s.bkgBuf _ rfl hB hN
  have hfgRead : readImage (streamOf [F]) s.imgBuf (getImageBufferSize s)
      = .ok (setPixels s.imgBuf F, 1, 0) :=
    readImage_one_chunk _ F s.imgBuf _ rfl hF hN
  have hack : ackLoop [2] 0 = .ok := rfl
  have hsnap : snapImage s (c6Transport F B) = .ret DEVICE_OK
      { s with bkgBuf := setPixels s.bkgBuf B
               imgBuf := subtractInPlace (setPixels s.imgBuf F) (setPixels s.bkgBuf B)
                 (getImageBufferSize s) } := by
    simp only [getImageBufferSize] at hbkgRead hfgRead ⊢
    rw [snapImage, if_pos hsub]
    simp only [c6Transport, hack, hbkgRead, hfgRead, snapForeground, ne_eq,
      not_true_eq_false, ite_false, getImageBufferSize, setPixels_width,
      setPixels_height, setPixels_depth, hsub, not_false_eq_true, ite_true]
  refine ⟨⟨_, hsnap, ?_⟩, by decide⟩
  have hFpix : (setPixels s.imgBuf F).pixels = F :=
    List.take_of_length_le (le_of_eq hF)
  have hBpix : (setPixels s.bkgBuf B).pixels = B :=
    List.take_of_length_le (le_of_eq (hB.trans hbkg.symm))
  show (subtractInPlace (setPixels s.imgBuf F) (setPixels s.bkgBuf B)
      (getImageBufferSize s)).pixels.getD i 0 = _
  rw [subtractInPlace_getD _ _ hi, hFpix, hBpix]

/-- Witness for C6: a 1 x 1 x 1 frame with foreground byte 5 and background
byte 10; the resulting live byte is 251. -/
theorem c6_background_subtract_wraps_witness :
    (∃ s', snapImage ⟨1, 1, 8, 1, 1000, 0, 0, ⟨1, 1, 1, [0]⟩, ⟨1, 1, 1, [0]⟩, 2121/50, 0, 0⟩
        (c6Transport [5] [10]) = .ret DEVICE_OK s' ∧
      s'.imgBuf.pixels.getD 0 0 = 251) := by
  have h := c6_background_subtract_wraps
    ⟨1, 1, 8, 1, 1000, 0, 0, ⟨1, 1, 1, [0]⟩, ⟨1, 1, 1, [0]⟩, 2121/50, 0, 0⟩
    [5] [10] 0 (by decide) (by decide) (by decide) (by decide) (by decide)
  obtain ⟨⟨s', hs, hbyte⟩, _⟩ := h
  exact ⟨s', hs, by simpa using hbyte⟩

/-- C7: with t1 a poll instant past the minimum interval, a query at t1
with a working transport performs exactly one round trip, updates the
cached value and timestamp; a second query at t2 within
TEMP_READ_DELAY_MS of t1 performs zero transport round trips, returns the
identical cached value and leaves the state unchanged; a third query at t3
after the interval elapses performs a new round trip and updates the
cached value and timestamp again. -/
theorem c7_temperature_cache (s : CamState) (t1 t2 t3 : Nat)
    (tp1 tp3 tpA : TempTransport)
    (h1 : t1 - s.lastTempRead > TEMP_READ_DELAY_MS)
    (hs1 : tp1.sendResult = DEVICE_OK) (hr1 : tp1.readResult = DEVICE_OK)
    (hc1 : tp1.readCount = 4)
    (h2 : t2 - t1 ≤ TEMP_READ_DELAY_MS)
    (h3 : t3 - t1 > TEMP_READ_DELAY_MS)
    (hs3 : tp3.sendResult = DEVICE_OK) (hr3 : tp3.readResult = DEVICE_OK)
    (hc3 : tp3.readCount = 4) :
    onCCDTempGet t1 tp1 s =
      ⟨DEVICE_OK, some (decodeTemp tp1),
        { s with lastTempRead := t1, ccdT := decodeTemp tp1 }, 1⟩ ∧
    onCCDTempGet t2 tpA { s with lastTempRead := t1, ccdT := decodeTemp tp1 } =
      ⟨DEVICE_OK, some (decodeTemp tp1),
        { s with lastTempRead := t1, ccdT := decodeTemp tp1 }, 0⟩ ∧
    onCCDTempGet t3 tp3 { s with lastTempRead := t1, ccdT := decodeTemp tp1 } =
      ⟨DEVICE_OK, some (decodeTemp tp3),
        { s with lastTempRead := t3, ccdT := decodeTemp tp3 }, 1⟩ := by
  refine ⟨onCCDTempGet_refresh t1 tp1 s h1 hs1 hr1 hc1, ?_, ?_⟩
  · exact onCCDTempGet_cached t2 tpA _ h2
  · exact onCCDTempGet_refresh t3 tp3 _ h3 hs3 hr3 hc3

/-- Witness for C7: initial state (last measurement at 0), queries at
t1 = 300, t2 = 400 and t3 = 600 with a transport delivering the 4 bytes
[0, 1, 0, 0]. -/
theorem c7_temperature_cache_witness :
    onCCDTempGet 300 ⟨DEVICE_OK, DEVICE_OK, 4, [0, 1, 0, 0]⟩ initState =
      ⟨DEVICE_OK, some (decodeTemp ⟨DEVICE_OK, DEVICE_OK, 4, [0, 1, 0, 0]⟩),
        { initState with lastTempRead := 300, ccdT := decodeTemp ⟨DEVICE_OK, DEVICE_OK, 4, [0, 1, 0, 0]⟩ }, 1⟩ ∧
    onCCDTempGet 400 ⟨DEVICE_OK, DEVICE_OK, 4, [0, 2, 0, 0]⟩
        { initState with lastTempRead := 300, ccdT := decodeTemp ⟨DEVICE_OK, DEVICE_OK, 4, [0, 1, 0, 0]⟩ } =
      ⟨DEVICE_OK, some (decodeTemp ⟨DEVICE_OK, DEVICE_OK, 4, [0, 1, 0, 0]⟩),
        { initState with lastTempRead := 300, ccdT := decodeTemp ⟨DEVICE_OK, DEVICE_OK, 4, [0, 1, 0, 0]⟩ }, 0⟩ ∧
    onCCDTempGet 600 ⟨DEVICE_OK, DEVICE_OK, 4, [0, 2, 0, 0]⟩
        { initState with lastTempRead := 300, ccdT := decodeTemp ⟨DEVICE_OK, DEVICE_OK, 4, [0, 1, 0, 0]⟩ } =
      ⟨DEVICE_OK, some (decodeTemp ⟨DEVICE_OK, DEVICE_OK, 4, [0, 2, 0, 0]⟩),
        { initState with lastTempRead := 600, ccdT := decodeTemp ⟨DEVICE_OK, DEVICE_OK, 4, [0, 2, 0, 0]⟩ }, 1⟩ :=
  c7_temperature_cache initState 300 400 600
    ⟨DEVICE_OK, DEVICE_OK, 4, [0, 1, 0, 0]⟩ ⟨DEVICE_OK, DEVICE_OK, 4, [0, 2, 0, 0]⟩
    ⟨DEVICE_OK, DEVICE_OK, 4, [0, 2, 0, 0]⟩
    (by decide) rfl rfl rfl (by decide) (by decide) rfl rfl rfl

/-- C10: when the minimum poll interval has elapsed but the transport send
or the 4-byte read fails (or the read delivers a byte count other than 4),
the temperature query returns a non-OK code with the cached value
unchanged and no value delivered, yet the last-measurement timestamp has
already been advanced to the attempt time; a follow-up query within
TEMP_READ_DELAY_MS of the failed attempt therefore returns the stale
cached value with zero transport round trips. -/
theorem c10_failed_poll_stale_cache (s : CamState) (t1 t2 : Nat)
    (tp tpA : TempTransport)
    (h1 : t1 - s.lastTempRead > TEMP_READ_DELAY_MS)
    (hf : tp.sendResult ≠ DEVICE_OK ∨ tp.readResult ≠ DEVICE_OK ∨ tp.readCount ≠ 4)
    (h2 : t2 - t1 ≤ TEMP_READ_DELAY_MS) :
    (onCCDTempGet t1 tp s).code ≠ DEVICE_OK ∧
    (onCCDTempGet t1 tp s).value = none ∧
    (onCCDTempGet t1 tp s).state = { s with lastTempRead := t1 } ∧
    (onCCDTempGet t1 tp s).roundTrips = 1 ∧
    onCCDTempGet t2 tpA { s with lastTempRead := t1 } =
      ⟨DEVICE_OK, some s.ccdT, { s with lastTempRead := t1 }, 0⟩ := by
  have hcached : onCCDTempGet t2 tpA { s with lastTempRead := t1 } =
      ⟨DEVICE_OK, some s.ccdT, { s with lastTempRead := t1 }, 0⟩ :=
    onCCDTempGet_cached t2 tpA _ h2
  by_cases hsend : tp.sendResult = DEVICE_OK
  · by_cases hread : tp.readResult = DEVICE_OK
    · have hcnt : tp.readCount ≠ 4 := by
        rcases hf with h | h | h
        · exact absurd hsend h
        · exact absurd hread h
        · exact h
      have heval : onCCDTempGet t1 tp s =
          ⟨ERR_COM_RESPONSE, none, { s with lastTempRead := t1 }, 1⟩ := by
        rw [onCCDTempGet, if_pos h1, if_neg (by simp [hsend]),
          if_neg (by simp [hread]), if_pos hcnt]
      rw [heval]
      exact ⟨show ERR_COM_RESPONSE ≠ DEVICE_OK by decide, rfl, rfl, rfl, hcached⟩
    · have heval : onCCDTempGet t1 tp s =
          ⟨tp.readResult, none, { s with lastTempRead := t1 }, 1⟩ := by
        rw [onCCDTempGet, if_pos h1, if_neg (by simp [hsend]), if_pos hread]
      rw [heval]
      exact ⟨hread, rfl, rfl, rfl, hcached⟩
  · have heval : onCCDTempGet t1 tp s =
        ⟨tp.sendResult, none, { s with lastTempRead := t1 }, 1⟩ := by
      rw [onCCDTempGet, if_pos h1, if_pos hsend]
    rw [heval]
    exact ⟨hsend, rfl, rfl, rfl, hcached⟩

/-- Witness for C10: initial state, failed poll at t1 = 300 (the read
reports 3 bytes), follow-up query at t2 = 400. -/
theorem c10_failed_poll_stale_cache_witness :
    (onCCDTempGet 300 ⟨DEVICE_OK, DEVICE_OK, 3, [0, 0, 0]⟩ initState).code ≠ DEVICE_OK ∧
    (onCCDTempGet 300 ⟨DEVICE_OK, DEVICE_OK, 3, [0, 0, 0]⟩ initState).value = none ∧
    (onCCDTempGet 300 ⟨DEVICE_OK, DEVICE_OK, 3, [0, 0, 0]⟩ initState).state =
      { initState with lastTempRead := 300 } ∧
    (onCCDTempGet 300 ⟨DEVICE_OK, DEVICE_OK, 3, [0, 0, 0]⟩ initState).roundTrips = 1 ∧
    onCCDTempGet 400 ⟨DEVICE_OK, DEVICE_OK, 3, [0, 0, 0]⟩
        { initState with lastTempRead := 300 } =
      ⟨DEVICE_OK, some initState.ccdT, { initState with lastTempRead := 300 }, 0⟩ :=
  c10_failed_poll_stale_cache initState 300 400
    ⟨DEVICE_OK, DEVICE_OK, 3, [0, 0, 0]⟩ ⟨DEVICE_OK, DEVICE_OK, 3, [0, 0, 0]⟩
    (by decide) (Or.inr (Or.inr (by decide))) (by decide)
